import Mathlib

/-!
Shallow embedding of `app.py` (image → caption → story → audio pipeline).

External services are modelled as explicit parameters of the embedded
functions: an `Except Unit String` is the outcome of one external model
call (`.error ()` meaning the call raised an exception, `.ok t` meaning it
returned the text `t`), a `Bool` (`rngErr`) is whether the body of the
`try` in `create_simple_story` itself raises, and a `Fin 5` (`choice`) is
the index drawn by `random.choice` over the five templates (uniform over
the pool, so every index is a possible draw).

Python string operations (`str.strip`, `str.split`, `' '.join`,
`str.replace`, `str.endswith`, `len`) are modelled on `List Char`, with
thin `String` wrappers.
-/

namespace App

/-- Python ASCII whitespace, as recognised by `str.strip` and `str.split()`. -/
def isWs (c : Char) : Bool :=
  c == ' ' || c == '\t' || c == '\n' || c == '\r' || c == '\x0b' || c == '\x0c'

/-- Drop trailing whitespace (the right half of Python `str.strip`). -/
def dropTrailWs : List Char → List Char
  | [] => []
  | c :: rest =>
    match dropTrailWs rest with
    | [] => if isWs c then [] else [c]
    | r :: rs => c :: r :: rs

/-- Python `str.strip`: drop leading and trailing whitespace. -/
def pyStripL (l : List Char) : List Char := dropTrailWs (l.dropWhile isWs)

/-- Python `s.split('\n')[0]`: everything before the first newline. -/
def firstLineL (l : List Char) : List Char := l.takeWhile (fun c => c != '\n')

/-- Python `s.replace('  ', ' ')`: one left-to-right pass replacing each
non-overlapping pair of spaces by a single space. -/
def collapseL : List Char → List Char
  | [] => []
  | [c] => [c]
  | c :: d :: rest =>
    if c = ' ' ∧ d = ' ' then ' ' :: collapseL rest else c :: collapseL (d :: rest)

/-- Python `s.replace(pat, '')`: delete all non-overlapping occurrences of
`pat`, scanning left to right, with explicit fuel (`l.length` always
suffices, since every step consumes at least one character). -/
def removeAllFuel (pat : List Char) : Nat → List Char → List Char
  | 0, l => l
  | _ + 1, [] => []
  | fuel + 1, c :: rest =>
    if pat ≠ [] ∧ pat.isPrefixOf (c :: rest) then
      removeAllFuel pat fuel ((c :: rest).drop pat.length)
    else
      c :: removeAllFuel pat fuel rest

def removeAllL (pat l : List Char) : List Char := removeAllFuel pat l.length l

/-- Split at every single whitespace character, keeping empty segments
(never returns `[]`). -/
def splitChars : List Char → List (List Char)
  | [] => [[]]
  | c :: rest =>
    if isWs c then [] :: splitChars rest
    else
      match splitChars rest with
      | [] => [[c]]
      | w :: ws => (c :: w) :: ws

/-- Python `str.split()` with no argument: split on whitespace runs,
discarding empty words. -/
def pySplitWsL (l : List Char) : List (List Char) :=
  (splitChars l).filter (fun w => decide (w ≠ []))

/-- Python `' '.join`. -/
def joinSp : List (List Char) → List Char
  | [] => []
  | [w] => w
  | w :: ws => w ++ ' ' :: joinSp ws

/-- Python `s.endswith(('.', '!', '?'))`. -/
def endsTermL (l : List Char) : Bool :=
  match l.getLast? with
  | some c => c == '.' || c == '!' || c == '?'
  | none => false

/-! String-level wrappers. -/

def pyStrip (s : String) : String := ⟨pyStripL s.data⟩

def firstLine (s : String) : String := ⟨firstLineL s.data⟩

def collapseSpaces (s : String) : String := ⟨collapseL s.data⟩

def removeAll (pat s : String) : String := ⟨removeAllL pat.data s.data⟩

/-- `len(s.split())`, the word count as computed in `main` (line 191). -/
def wordCount (s : String) : Nat := (pySplitWsL s.data).length

def endsTerm (s : String) : Bool := endsTermL s.data

/-! The embedded source functions of `app.py`. -/

/-- The five fallback templates of `create_simple_story` (lines 91–97). -/
def templates : List String := [
  "This moment captured pure joy. The scene unfolded naturally, revealing beauty in everyday life and creating lasting memories.",
  "Something magical happened here. Every detail told its own story. The atmosphere felt warm and inviting throughout.",
  "In this peaceful moment, everything aligned perfectly. Nature and comfort blended together, creating harmony and contentment.",
  "Life's beautiful moments appear unexpectedly. This scene embodied warmth. Each element contributed to the peaceful atmosphere.",
  "A snapshot of happiness captured here. The setting provided comfort and joy, making everything come alive beautifully."
]

/-- The hardcoded sentence returned by the `except` arm of
`create_simple_story` (line 104). -/
def defaultStory : String :=
  "A beautiful moment captured in time. Everything seemed perfect in this peaceful scene worth remembering."

/-- `create_simple_story(scenario)` (lines 87–104). `rngErr` models the
`try` body raising (then the `except` arm returns `defaultStory`),
`choice` is the index drawn by `random.choice(templates)`. The `scenario`
argument is unused by the body, exactly as in the source. -/
def create_simple_story (scenario : String) (rngErr : Bool) (choice : Fin 5) : String :=
  if rngErr then defaultStory else templates.getD choice.val defaultStory

/-- Line 44: `prompt = f"{scenario}. The story begins:"`. -/
def mkPrompt (scenario : String) : String := scenario ++ ". The story begins:"

/-- Lines 60–65: `full_text.replace(prompt, "").strip()`, then
`.split('\n')[0]`, then `.replace('  ', ' ')`, then `.strip()`. -/
def clean_story (prompt full_text : String) : String :=
  let story := pyStrip (removeAll prompt full_text)
  let story := firstLine story
  let story := collapseSpaces story
  pyStrip story

/-- Lines 73–74: `words = story.split()[:20]; story = " ".join(words)`. -/
def truncate20 (story : String) : String := ⟨joinSp ((pySplitWsL story.data).take 20)⟩

/-- Lines 77–78: `if story and not story.endswith(('.', '!', '?')): story += '.'`. -/
def ensureEnding (story : String) : String :=
  if story ≠ "" ∧ endsTerm story = false then story ++ "." else story

/-- Python truthiness of an optional string (`if not scenario:`, `if story:`):
`None` and `""` are falsy. -/
def truthy : Option String → Bool
  | none => false
  | some t => !(t == "")

/-- Instrumented run of `generate_story`: the returned story plus which
parts executed. `genAttempted` is true once the `try` block is entered,
`fallbackUsed` is true when `create_simple_story` is invoked, and
`finalElseTaken` is true only when the `else` arm of line 80
(`return story if story else create_simple_story(scenario)`) fires. -/
structure GenRun where
  story : Option String
  genAttempted : Bool
  fallbackUsed : Bool
  finalElseTaken : Bool
deriving DecidableEq

/-- `generate_story(scenario)` (lines 35–85), instrumented. `gen` is the
outcome of the text-generation call (`.error ()` = some exception was
raised inside the `try`, caught at line 82). -/
def generate_storyRun (scenario : Option String) (gen : Except Unit String)
    (rngErr : Bool) (choice : Fin 5) : GenRun :=
  if truthy scenario = false then ⟨none, false, false, false⟩
  else
    match gen with
    | .error _ =>
      ⟨some (create_simple_story (scenario.getD "") rngErr choice), true, true, false⟩
    | .ok full_text =>
      let sc := scenario.getD ""
      let cleaned := clean_story (mkPrompt sc) full_text
      let story :=
        if cleaned.length < 10 then create_simple_story sc rngErr choice
        else truncate20 cleaned
      let story := ensureEnding story
      if story ≠ "" then ⟨some story, true, decide (cleaned.length < 10), false⟩
      else ⟨some (create_simple_story sc rngErr choice), true, true, true⟩

/-- The value returned by `generate_story`. -/
def generate_story (scenario : Option String) (gen : Except Unit String)
    (rngErr : Bool) (choice : Fin 5) : Option String :=
  (generate_storyRun scenario gen rngErr choice).story

/-- `img2text` (lines 25–33): the caption text, or `None` when the
underlying model call raises. -/
def img2text (modelCall : Except Unit String) : Option String :=
  match modelCall with
  | .ok t => some t
  | .error _ => none

/-- Observable trace of one run of the `main` pipeline. -/
structure PipeRun where
  scenario : Option String
  story : Option String
  storyAttempted : Bool
  narratorCalled : Bool
  narratorInput : Option String
deriving DecidableEq

/-- The processing branch of `main` (lines 173–239): caption, then
(if the scenario is truthy) generate the story, then (if the story is
truthy) call `text2speech_gtts(f"{scenario}. {story}", "audio.mp3")`. -/
def mainPipeline (capCall gen : Except Unit String) (rngErr : Bool) (choice : Fin 5) : PipeRun :=
  let scenario := img2text capCall
  if truthy scenario = false then ⟨scenario, none, false, false, none⟩
  else
    let sc := scenario.getD ""
    let story := generate_story scenario gen rngErr choice
    if truthy story = false then ⟨scenario, story, true, false, none⟩
    else ⟨scenario, story, true, true, some (sc ++ ". " ++ story.getD "")⟩

/-! Definitions written from the claims, for comparison with the source. -/

/-- Python `str.removeprefix`: drop `prompt` from the front of `s` when it
is a prefix, else leave `s` unchanged. -/
def dropPromptPref (prompt s : String) : String :=
  if prompt.data.isPrefixOf s.data then ⟨s.data.drop prompt.data.length⟩ else s

/-- The cleaning step exactly as claim C6 reads it: strip the prompt
PREFIX from the generated text, take the first line, collapse double
spaces, trim whitespace — in that order. -/
def clean_claimC6 (prompt full_text : String) : String :=
  pyStrip (collapseSpaces (firstLine (dropPromptPref prompt full_text)))

/-- The cleaning step as amended: remove EVERY occurrence of the prompt
anywhere in the generated text and trim, then take the first line,
collapse double spaces, and trim. -/
def clean_amendedC6 (prompt full_text : String) : String :=
  pyStrip (collapseSpaces (firstLine (pyStrip (removeAll prompt full_text))))

/-! ### Helper lemmas about the string primitives -/

theorem data_append (s t : String) : (s ++ t).data = s.data ++ t.data := rfl

theorem length_eq_data (s : String) : s.length = s.data.length := rfl

theorem mk_ne_empty (l : List Char) (h : l ≠ []) : (⟨l⟩ : String) ≠ "" := by
  intro he
  exact h (congrArg String.data he)

theorem ne_empty_of_data (s : String) (h : s.data ≠ []) : s ≠ "" := by
  intro he
  exact h (by rw [he])

theorem dropWhile_isWs_head : ∀ (l : List Char) (c : Char) (r : List Char),
    l.dropWhile isWs = c :: r → isWs c = false := by
  intro l
  induction l with
  | nil => intro c r h; simp [List.dropWhile] at h
  | cons a t ih =>
    intro c r h
    by_cases ha : isWs a = true
    · rw [List.dropWhile_cons, if_pos ha] at h
      exact ih c r h
    · rw [List.dropWhile_cons, if_neg ha] at h
      cases h
      simpa using ha

theorem dropTrailWs_head (a : Char) (t : List Char) (c : Char) (r : List Char)
    (h : dropTrailWs (a :: t) = c :: r) : c = a := by
  rw [dropTrailWs] at h
  rcases hd : dropTrailWs t with _ | ⟨x, xs⟩
  · rw [hd] at h
    by_cases ha : isWs a = true
    · rw [if_pos ha] at h
      cases h
    · rw [if_neg ha] at h
      cases h
      rfl
  · rw [hd] at h
    cases h
    rfl

theorem pyStripL_head (l : List Char) (c : Char) (r : List Char)
    (h : pyStripL l = c :: r) : isWs c = false := by
  rw [pyStripL] at h
  rcases hd : l.dropWhile isWs with _ | ⟨a, t⟩
  · rw [hd] at h
    simp [dropTrailWs] at h
  · rw [hd] at h
    have hca := dropTrailWs_head a t c r h
    subst hca
    exact dropWhile_isWs_head l c t hd

theorem splitChars_ne_nil (l : List Char) : splitChars l ≠ [] := by
  cases l with
  | nil => simp [splitChars]
  | cons c rest =>
    rw [splitChars]
    split
    · simp
    · split <;> simp

theorem mem_splitChars_not_ws : ∀ (l w : List Char), w ∈ splitChars l →
    ∀ c ∈ w, isWs c = false := by
  intro l
  induction l with
  | nil =>
    intro w hw c hc
    simp [splitChars] at hw
    subst hw
    simp at hc
  | cons a rest ih =>
    intro w hw c hc
    rw [splitChars] at hw
    by_cases ha : isWs a = true
    · rw [if_pos ha, List.mem_cons] at hw
      rcases hw with hw | hw
      · subst hw; simp at hc
      · exact ih w hw c hc
    · rw [if_neg ha] at hw
      rcases hs : splitChars rest with _ | ⟨w0, ws0⟩
      · exact absurd hs (splitChars_ne_nil rest)
      · rw [hs, List.mem_cons] at hw
        rcases hw with hw | hw
        · subst hw
          rcases List.mem_cons.mp hc with hc | hc
          · subst hc; simpa using ha
          · exact ih w0 (hs ▸ List.mem_cons_self w0 ws0) c hc
        · exact ih w (hs ▸ List.mem_cons_of_mem w0 hw) c hc

theorem mem_pySplitWsL (l w : List Char) (hw : w ∈ pySplitWsL l) :
    w ≠ [] ∧ ∀ c ∈ w, isWs c = false := by
  rw [pySplitWsL, List.mem_filter] at hw
  exact ⟨by simpa using hw.2, mem_splitChars_not_ws l w hw.1⟩

theorem pySplitWsL_cons_not_ws (c : Char) (rest : List Char) (hc : isWs c = false) :
    pySplitWsL (c :: rest) ≠ [] := by
  rw [pySplitWsL, splitChars, if_neg (by simp [hc])]
  rcases hs : splitChars rest with _ | ⟨w, ws⟩
  · simp
  · simp [List.filter_cons]

theorem splitChars_word (w : List Char) (hw : ∀ c ∈ w, isWs c = false) :
    splitChars w = [w] := by
  induction w with
  | nil => simp [splitChars]
  | cons c rest ih =>
    have hc : isWs c = false := hw c (List.mem_cons_self c rest)
    rw [splitChars, if_neg (by simp [hc]),
        ih (fun d hd => hw d (List.mem_cons_of_mem c hd))]

theorem splitChars_word_space (w t : List Char) (hw : ∀ c ∈ w, isWs c = false) :
    splitChars (w ++ ' ' :: t) = w :: splitChars t := by
  induction w with
  | nil =>
    simp only [List.nil_append]
    rw [splitChars, if_pos (by decide)]
  | cons c rest ih =>
    have hc : isWs c = false := hw c (List.mem_cons_self c rest)
    rw [List.cons_append, splitChars, if_neg (by simp [hc]),
        ih (fun d hd => hw d (List.mem_cons_of_mem c hd))]

theorem joinSp_cons_of_ne (w : List Char) (ws : List (List Char)) (h : ws ≠ []) :
    joinSp (w :: ws) = w ++ ' ' :: joinSp ws := by
  cases ws with
  | nil => exact absurd rfl h
  | cons w2 t => rfl

theorem joinSp_ne_nil (w : List Char) (ws : List (List Char)) (hw : w ≠ []) :
    joinSp (w :: ws) ≠ [] := by
  cases ws with
  | nil => simpa [joinSp] using hw
  | cons w2 t =>
    rw [joinSp_cons_of_ne w (w2 :: t) (by simp)]
    simp

theorem pySplitWsL_joinSp : ∀ (ws : List (List Char)),
    (∀ w ∈ ws, w ≠ [] ∧ ∀ c ∈ w, isWs c = false) → pySplitWsL (joinSp ws) = ws := by
  intro ws
  induction ws with
  | nil => intro _; simp [joinSp, pySplitWsL, splitChars]
  | cons w t ih =>
    intro h
    have hw := h w (List.mem_cons_self w t)
    cases t with
    | nil =>
      show pySplitWsL (joinSp [w]) = [w]
      rw [show joinSp [w] = w from rfl, pySplitWsL, splitChars_word w hw.2]
      simp [List.filter_cons, hw.1]
    | cons w2 t2 =>
      have ht : ∀ v ∈ w2 :: t2, v ≠ [] ∧ ∀ c ∈ v, isWs c = false :=
        fun v hv => h v (List.mem_cons_of_mem w hv)
      have hrest : pySplitWsL (joinSp (w2 :: t2)) = w2 :: t2 := ih ht
      rw [pySplitWsL] at hrest
      rw [joinSp_cons_of_ne w (w2 :: t2) (by simp), pySplitWsL,
          splitChars_word_space w (joinSp (w2 :: t2)) hw.2,
          List.filter_cons, if_pos (by simpa using hw.1), hrest]

theorem joinSp_append_ext : ∀ (ws : List (List Char)) (w ext : List Char),
    joinSp (ws ++ [w ++ ext]) = joinSp (ws ++ [w]) ++ ext := by
  intro ws
  induction ws with
  | nil => intro w ext; rfl
  | cons w0 t ih =>
    intro w ext
    rw [List.cons_append, List.cons_append,
        joinSp_cons_of_ne w0 (t ++ [w ++ ext]) (by simp),
        joinSp_cons_of_ne w0 (t ++ [w]) (by simp),
        ih w ext]
    simp

theorem pySplitWsL_joinSp_dot (ws : List (List Char))
    (h : ∀ w ∈ ws, w ≠ [] ∧ ∀ c ∈ w, isWs c = false) (hne : ws ≠ []) :
    (pySplitWsL (joinSp ws ++ ['.'])).length = ws.length := by
  obtain ⟨l, w, hlw⟩ : ∃ l w, ws = l ++ [w] :=
    ⟨ws.dropLast, ws.getLast hne, (List.dropLast_append_getLast hne).symm⟩
  subst hlw
  rw [← joinSp_append_ext l w ['.']]
  rw [pySplitWsL_joinSp (l ++ [w ++ ['.']]) ?side]
  · simp
  case side =>
    intro v hv
    rcases List.mem_append.mp hv with hv | hv
    · exact h v (List.mem_append.mpr (Or.inl hv))
    · rw [List.mem_singleton] at hv
      subst hv
      have hw := h w (List.mem_append.mpr (Or.inr (List.mem_singleton.mpr rfl)))
      refine ⟨by simp, ?_⟩
      intro c hc
      rcases List.mem_append.mp hc with hc | hc
      · exact hw.2 c hc
      · rw [List.mem_singleton] at hc
        subst hc
        decide

theorem endsTermL_append_dot (l : List Char) : endsTermL (l ++ ['.']) = true := by
  rw [endsTermL, List.getLast?_concat]
  rfl

/-! ### Properties of the fallback selector -/

theorem css_props (sc : String) (e : Bool) (ch : Fin 5) :
    create_simple_story sc e ch ≠ "" ∧ wordCount (create_simple_story sc e ch) ≤ 20 ∧
      endsTerm (create_simple_story sc e ch) = true := by
  rw [show create_simple_story sc e ch = create_simple_story "" e ch from rfl]
  cases e
  · fin_cases ch <;> exact ⟨by decide, by decide, by decide⟩
  · rw [show create_simple_story "" true ch = defaultStory from rfl]
    exact ⟨by decide, by decide, by decide⟩

theorem css_pool (sc : String) (e : Bool) (ch : Fin 5) :
    (e = true → create_simple_story sc e ch = defaultStory) ∧
    (e = false → create_simple_story sc e ch ∈ templates) := by
  rw [show create_simple_story sc e ch = create_simple_story "" e ch from rfl]
  cases e
  · refine ⟨by simp, fun _ => ?_⟩
    fin_cases ch <;> decide
  · exact ⟨fun _ => rfl, by simp⟩

theorem ensureEnding_of_endsTerm (s : String) (h : endsTerm s = true) :
    ensureEnding s = s := by
  rw [ensureEnding, if_neg (by simp [h])]

/-! ### The main post-processing bound -/

theorem truncate_ensure_props (t : String) (hlen : 10 ≤ (pyStrip t).length) :
    ensureEnding (truncate20 (pyStrip t)) ≠ "" ∧
    wordCount (ensureEnding (truncate20 (pyStrip t))) ≤ 20 ∧
    endsTerm (ensureEnding (truncate20 (pyStrip t))) = true := by
  rcases hd : (pyStrip t).data with _ | ⟨c, r⟩
  · rw [length_eq_data, hd] at hlen
    simp at hlen
  · have hc : isWs c = false := pyStripL_head t.data c r hd
    have hwords : pySplitWsL (pyStrip t).data ≠ [] := by
      rw [hd]
      exact pySplitWsL_cons_not_ws c r hc
    obtain ⟨w0, wr, hq⟩ : ∃ w0 wr, pySplitWsL (pyStrip t).data = w0 :: wr := by
      rcases hq : pySplitWsL (pyStrip t).data with _ | ⟨w0, wr⟩
      · exact absurd hq hwords
      · exact ⟨w0, wr, rfl⟩
    have htake : (pySplitWsL (pyStrip t).data).take 20 = w0 :: wr.take 19 := by
      rw [hq]
      rfl
    have hmem : ∀ w ∈ w0 :: wr.take 19, w ≠ [] ∧ ∀ d ∈ w, isWs d = false := by
      intro w hw
      apply mem_pySplitWsL (pyStrip t).data
      rw [hq]
      rcases List.mem_cons.mp hw with h | h
      · exact h ▸ List.mem_cons_self w0 wr
      · exact List.mem_cons_of_mem w0 (List.take_subset 19 wr h)
    have hw0 : w0 ≠ [] := (hmem w0 (List.mem_cons_self w0 (wr.take 19))).1
    have hlen20 : (w0 :: wr.take 19).length ≤ 20 := by
      simp [List.length_take]
    have hjoin : pySplitWsL (joinSp (w0 :: wr.take 19)) = w0 :: wr.take 19 :=
      pySplitWsL_joinSp _ hmem
    have hjne : joinSp (w0 :: wr.take 19) ≠ [] := joinSp_ne_nil w0 _ hw0
    have htr : truncate20 (pyStrip t) = ⟨joinSp (w0 :: wr.take 19)⟩ := by
      rw [truncate20, htake]
    by_cases hET : endsTerm (truncate20 (pyStrip t)) = true
    · rw [ensureEnding_of_endsTerm _ hET]
      refine ⟨?_, ?_, hET⟩
      · rw [htr]
        exact mk_ne_empty _ hjne
      · rw [htr]
        show (pySplitWsL (joinSp (w0 :: wr.take 19))).length ≤ 20
        rw [hjoin]
        exact hlen20
    · have hET2 : endsTerm (truncate20 (pyStrip t)) = false := by
        revert hET
        cases endsTerm (truncate20 (pyStrip t)) <;> simp
      have hne0 : truncate20 (pyStrip t) ≠ "" := by
        rw [htr]
        exact mk_ne_empty _ hjne
      have hee : ensureEnding (truncate20 (pyStrip t)) = truncate20 (pyStrip t) ++ "." := by
        rw [ensureEnding, if_pos ⟨hne0, hET2⟩]
      rw [hee]
      have hdata : (truncate20 (pyStrip t) ++ ".").data = joinSp (w0 :: wr.take 19) ++ ['.'] := by
        rw [htr]
        rfl
      refine ⟨?_, ?_, ?_⟩
      · apply ne_empty_of_data
        rw [hdata]
        simp
      · show (pySplitWsL ((truncate20 (pyStrip t) ++ ".").data)).length ≤ 20
        rw [hdata, pySplitWsL_joinSp_dot _ hmem (by simp)]
        exact hlen20
      · show endsTermL ((truncate20 (pyStrip t) ++ ".").data) = true
        rw [hdata]
        exact endsTermL_append_dot _

/-! ### Characterizations of `generate_storyRun` -/

theorem genRun_not_truthy (scenario : Option String) (gen : Except Unit String)
    (e : Bool) (ch : Fin 5) (h : truthy scenario = false) :
    generate_storyRun scenario gen e ch = ⟨none, false, false, false⟩ := by
  rw [generate_storyRun.eq_def, if_pos h]

theorem truthy_some_of_ne (sc : String) (hsc : sc ≠ "") : truthy (some sc) = true := by
  rw [show truthy (some sc) = !(sc == "") from rfl]
  simp [hsc]

theorem genRun_error (sc : String) (e : Bool) (ch : Fin 5) (hsc : sc ≠ "") :
    generate_storyRun (some sc) (.error ()) e ch =
      ⟨some (create_simple_story sc e ch), true, true, false⟩ := by
  rw [generate_storyRun.eq_def, if_neg (by simp [truthy_some_of_ne sc hsc])]
  rfl

theorem genRun_ok_eq (sc full : String) (e : Bool) (ch : Fin 5) (hsc : sc ≠ "") :
    generate_storyRun (some sc) (.ok full) e ch =
      if ensureEnding (if (clean_story (mkPrompt sc) full).length < 10
          then create_simple_story sc e ch
          else truncate20 (clean_story (mkPrompt sc) full)) ≠ ""
      then ⟨some (ensureEnding (if (clean_story (mkPrompt sc) full).length < 10
          then create_simple_story sc e ch
          else truncate20 (clean_story (mkPrompt sc) full))), true,
          decide ((clean_story (mkPrompt sc) full).length < 10), false⟩
      else ⟨some (create_simple_story sc e ch), true, true, true⟩ := by
  rw [generate_storyRun.eq_def, if_neg (by simp [truthy_some_of_ne sc hsc])]
  rfl

theorem genRun_ok (sc full : String) (e : Bool) (ch : Fin 5) (hsc : sc ≠ "") :
    ∃ st, generate_storyRun (some sc) (.ok full) e ch =
        ⟨some st, true, decide ((clean_story (mkPrompt sc) full).length < 10), false⟩ ∧
      st ≠ "" ∧ wordCount st ≤ 20 ∧ endsTerm st = true ∧
      ((clean_story (mkPrompt sc) full).length < 10 → st = create_simple_story sc e ch) := by
  rw [genRun_ok_eq sc full e ch hsc]
  by_cases hlen : (clean_story (mkPrompt sc) full).length < 10
  · obtain ⟨h1, h2, h3⟩ := css_props sc e ch
    rw [if_pos hlen, ensureEnding_of_endsTerm _ h3, if_pos h1]
    exact ⟨create_simple_story sc e ch, rfl, h1, h2, h3, fun _ => rfl⟩
  · have hcs : clean_story (mkPrompt sc) full =
        pyStrip (collapseSpaces (firstLine (pyStrip (removeAll (mkPrompt sc) full)))) := rfl
    obtain ⟨h1, h2, h3⟩ :=
      truncate_ensure_props (collapseSpaces (firstLine (pyStrip (removeAll (mkPrompt sc) full))))
        (hcs ▸ Nat.le_of_not_lt hlen)
    rw [if_neg hlen]
    rw [← hcs] at h1 h2 h3
    rw [if_pos h1]
    exact ⟨ensureEnding (truncate20 (clean_story (mkPrompt sc) full)), rfl, h1, h2, h3,
      fun hl => absurd hl hlen⟩

/-- Master property of `generate_story` on a truthy scenario: it always
returns some non-empty story of at most 20 words ending in terminal
punctuation, whatever the generation outcome, RNG error flag and RNG draw. -/
theorem genStory_main (sc : String) (gen : Except Unit String) (e : Bool) (ch : Fin 5)
    (hsc : sc ≠ "") :
    ∃ st, generate_story (some sc) gen e ch = some st ∧ st ≠ "" ∧
      wordCount st ≤ 20 ∧ endsTerm st = true := by
  cases gen with
  | error u =>
    cases u
    obtain ⟨h1, h2, h3⟩ := css_props sc e ch
    exact ⟨create_simple_story sc e ch,
      by rw [generate_story, genRun_error sc e ch hsc], h1, h2, h3⟩
  | ok full =>
    obtain ⟨st, hrec, h1, h2, h3, -⟩ := genRun_ok sc full e ch hsc
    exact ⟨st, by rw [generate_story, hrec], h1, h2, h3⟩

/-- When the scenario captioning succeeded with a non-empty caption and the
story is some non-empty string, `main` reaches the narration call with
`f"{scenario}. {story}"`. -/
theorem mainPipeline_ok (sc : String) (gen : Except Unit String) (e : Bool) (ch : Fin 5)
    (st : String) (hsc : sc ≠ "") (hst : generate_story (some sc) gen e ch = some st)
    (hstne : st ≠ "") :
    mainPipeline (.ok sc) gen e ch = ⟨some sc, some st, true, true, some (sc ++ ". " ++ st)⟩ := by
  have htr : truthy (some sc) = true := truthy_some_of_ne sc hsc
  have hts : truthy (some st) = true := truthy_some_of_ne st hstne
  rw [mainPipeline.eq_def]
  simp only [img2text, hst, htr, hts, Option.getD_some]
  simp

/-! ### The claims -/

/-- C1: every story returned by `generate_story` for a non-empty scenario
has word count at most 20 and ends in one of '.', '!', '?'. -/
theorem c1_story_wordcount_ending (sc : String) (gen : Except Unit String)
    (e : Bool) (ch : Fin 5) (st : String) (hsc : sc ≠ "")
    (hst : generate_story (some sc) gen e ch = some st) :
    wordCount st ≤ 20 ∧ endsTerm st = true := by
  obtain ⟨st2, h1, -, h3, h4⟩ := genStory_main sc gen e ch hsc
  rw [hst] at h1
  obtain rfl : st = st2 := Option.some.inj h1
  exact ⟨h3, h4⟩

theorem c1_witness :
    wordCount "once upon a time there." ≤ 20 ∧ endsTerm "once upon a time there." = true :=
  c1_story_wordcount_ending "x" (.ok "x. The story begins: once upon a time there")
    false 0 "once upon a time there." (by decide) rfl

/-- C2: whenever the cleaned generated text has fewer than 10 characters
(in particular when the generation result decodes to exactly the prompt),
the returned story is non-empty and comes from the five-template pool (or
is the fixed default sentence when fallback selection itself errors). -/
theorem c2_short_cleaned_fallback (sc full : String) (e : Bool) (ch : Fin 5)
    (hsc : sc ≠ "") (hshort : (clean_story (mkPrompt sc) full).length < 10) :
    ∃ st, generate_story (some sc) (.ok full) e ch = some st ∧ st ≠ "" ∧
      st = create_simple_story sc e ch ∧ (st ∈ templates ∨ st = defaultStory) := by
  obtain ⟨st, hrec, h1, -, -, hfb⟩ := genRun_ok sc full e ch hsc
  refine ⟨st, by rw [generate_story, hrec], h1, hfb hshort, ?_⟩
  rw [hfb hshort]
  obtain ⟨hpool1, hpool2⟩ := css_pool sc e ch
  cases e
  · exact Or.inl (hpool2 rfl)
  · exact Or.inr (hpool1 rfl)

theorem c2_witness :
    generate_story (some "a cat") (.ok (mkPrompt "a cat")) false 2 =
      some (templates.getD 2 defaultStory) ∧
    (clean_story (mkPrompt "a cat") (mkPrompt "a cat")).length < 10 ∧
    templates.getD 2 defaultStory ≠ "" := by
  obtain ⟨st, h1, h2, h3, -⟩ :=
    c2_short_cleaned_fallback "a cat" (mkPrompt "a cat") false 2 (by decide) (by decide)
  have hst : st = templates.getD 2 defaultStory := by
    rw [show create_simple_story "a cat" false 2 = templates.getD 2 defaultStory from rfl] at h3
    exact h3
  rw [hst] at h1 h2
  exact ⟨h1, by decide, h2⟩

/-- C3: `generate_story` absorbs every internal failure: whenever the
`try` block can run (non-empty scenario) it returns some non-empty string,
whatever the generation outcome — including when the generation call
raises — with no exception escaping (the embedded function is total). -/
theorem c3_absorbs_exceptions (sc : String) (gen : Except Unit String)
    (e : Bool) (ch : Fin 5) (hsc : sc ≠ "") :
    ∃ st, generate_story (some sc) gen e ch = some st ∧ st ≠ "" := by
  obtain ⟨st, h1, h2, -, -⟩ := genStory_main sc gen e ch hsc
  exact ⟨st, h1, h2⟩

theorem c3_witness :
    generate_story (some "a bird") (.error ()) true 0 = some defaultStory ∧
    defaultStory ≠ "" := by
  obtain ⟨st, h1, h2⟩ := c3_absorbs_exceptions "a bird" (.error ()) true 0 (by decide)
  have hst : st = defaultStory := by
    have h3 : generate_story (some "a bird") (.error ()) true 0 = some defaultStory := rfl
    rw [h1] at h3
    exact Option.some.inj h3
  rw [hst] at h1 h2
  exact ⟨h1, h2⟩

/-- C4 counterexample: the claim says each template is 18–20 words long,
but with the RNG drawing index 1 the fallback returns the second template,
which has 17 words. -/
theorem c4_counterexample :
    wordCount (create_simple_story "a cat" false 1) = 17 ∧
    ¬ 18 ≤ wordCount (create_simple_story "a cat" false 1) :=
  ⟨by decide, by decide⟩

/-- C4 (amended): `create_simple_story` returns the template selected by
the uniform RNG draw from the fixed pool of exactly five templates, each
of which is 16–18 words long and properly punctuated; on any internal
error it returns the single fixed default sentence unconditionally. -/
theorem c4_amended_fallback_pool (sc : String) (e : Bool) (ch : Fin 5) :
    templates.length = 5 ∧
    (e = false → create_simple_story sc e ch = templates.getD ch.val defaultStory ∧
      create_simple_story sc e ch ∈ templates) ∧
    (e = true → create_simple_story sc e ch = defaultStory) ∧
    (∀ t ∈ templates, 16 ≤ wordCount t ∧ wordCount t ≤ 18 ∧ endsTerm t = true) ∧
    endsTerm defaultStory = true := by
  refine ⟨rfl, fun he => ?_, fun he => ?_, by decide, by decide⟩
  · subst he
    exact ⟨rfl, (css_pool sc false ch).2 rfl⟩
  · subst he
    exact (css_pool sc true ch).1 rfl

theorem c4_witness :
    create_simple_story "x" false 3 = templates.getD 3 defaultStory ∧
    create_simple_story "x" true 0 = defaultStory :=
  ⟨((c4_amended_fallback_pool "x" false 3).2.1 rfl).1,
    (c4_amended_fallback_pool "x" true 0).2.2.1 rfl⟩

/-- C5: the captioner returns null exactly when the underlying model call
raises, and a null caption halts the pipeline: no story generation and no
narration is attempted. -/
theorem c5_captioner_null_iff (cap gen : Except Unit String) (e : Bool) (ch : Fin 5) :
    (img2text cap = none ↔ cap = .error ()) ∧
    (img2text cap = none →
      (mainPipeline cap gen e ch).storyAttempted = false ∧
      (mainPipeline cap gen e ch).narratorCalled = false ∧
      (mainPipeline cap gen e ch).story = none) := by
  cases cap with
  | error u =>
    cases u
    refine ⟨by simp [img2text], fun _ => ?_⟩
    rw [show mainPipeline (.error ()) gen e ch = ⟨none, none, false, false, none⟩ from rfl]
    exact ⟨rfl, rfl, rfl⟩
  | ok t =>
    refine ⟨by simp [img2text], fun h => ?_⟩
    simp [img2text] at h

theorem c5_witness :
    img2text (.error ()) = none ∧
    (mainPipeline (.error ()) (.ok "x") false 0).narratorCalled = false ∧
    (mainPipeline (.error ()) (.ok "x") false 0).storyAttempted = false := by
  obtain ⟨hiff, h⟩ := c5_captioner_null_iff (.error ()) (.ok "x") false 0
  have hn : img2text (Except.error ()) = none := hiff.mpr rfl
  exact ⟨hn, (h hn).2.1, (h hn).1⟩

/-- C6 counterexample: the claim says the cleaning strips the prompt
PREFIX; the code instead deletes every occurrence of the prompt anywhere
in the text. On a generated text containing the prompt in the middle the
two disagree. -/
theorem c6_counterexample :
    clean_story (mkPrompt "a") "b a. The story begins:" = "b" ∧
    clean_claimC6 (mkPrompt "a") "b a. The story begins:" = "b a. The story begins:" ∧
    clean_story (mkPrompt "a") "b a. The story begins:" ≠
      clean_claimC6 (mkPrompt "a") "b a. The story begins:" :=
  ⟨by decide, by decide, by decide⟩

/-- C6 (amended): the cleaning step removes every occurrence of the prompt
from the generated text and trims whitespace, then takes the first line,
collapses double spaces, and trims whitespace, in that order. -/
theorem c6_amended_cleaning (prompt full_text : String) :
    clean_story prompt full_text = clean_amendedC6 prompt full_text := rfl

/-- C7: whenever the pipeline runs on a successfully captioned non-empty
scenario, the narrator is invoked with `scenario ++ ". " ++ story`, and
the story ends in terminal punctuation. -/
theorem c7_narrator_input (sc : String) (gen : Except Unit String) (e : Bool) (ch : Fin 5)
    (hsc : sc ≠ "") :
    ∃ st, generate_story (some sc) gen e ch = some st ∧ endsTerm st = true ∧
      (mainPipeline (.ok sc) gen e ch).narratorCalled = true ∧
      (mainPipeline (.ok sc) gen e ch).narratorInput = some (sc ++ ". " ++ st) := by
  obtain ⟨st, h1, hne, -, hterm⟩ := genStory_main sc gen e ch hsc
  rw [mainPipeline_ok sc gen e ch st hsc h1 hne]
  exact ⟨st, h1, hterm, rfl, rfl⟩

theorem c7_witness :
    (mainPipeline (.ok "a dog running on a beach") (.error ()) false 0).narratorInput =
      some ("a dog running on a beach" ++ ". " ++
        "This moment captured pure joy. The scene unfolded naturally, revealing beauty in everyday life and creating lasting memories.") := by
  obtain ⟨st, h1, -, -, h4⟩ :=
    c7_narrator_input "a dog running on a beach" (.error ()) false 0 (by decide)
  have hst : st = "This moment captured pure joy. The scene unfolded naturally, revealing beauty in everyday life and creating lasting memories." := by
    have h2 : generate_story (some "a dog running on a beach") (.error ()) false 0 =
        some "This moment captured pure joy. The scene unfolded naturally, revealing beauty in everyday life and creating lasting memories." := rfl
    rw [h1] at h2
    exact Option.some.inj h2
  rw [hst] at h4
  exact h4

/-- C8: a null or empty scenario makes `generate_story` return null
immediately, with neither the text-generation model nor the fallback
selector invoked. -/
theorem c8_empty_scenario_null (scenario : Option String) (gen : Except Unit String)
    (e : Bool) (ch : Fin 5) (h : scenario = none ∨ scenario = some "") :
    generate_storyRun scenario gen e ch = ⟨none, false, false, false⟩ := by
  have ht : truthy scenario = false := by
    rcases h with h | h <;> subst h <;> rfl
  exact genRun_not_truthy scenario gen e ch ht

theorem c8_witness :
    generate_storyRun (some "") (.ok "text") false 0 = ⟨none, false, false, false⟩ :=
  c8_empty_scenario_null (some "") (.ok "text") false 0 (Or.inr rfl)

/-- C9: the fallback selector's output does not depend on the scenario:
for any two scenario strings and the same RNG state it returns the same
string. -/
theorem c9_fallback_scenario_independent (s1 s2 : String) (e : Bool) (ch : Fin 5) :
    create_simple_story s1 e ch = create_simple_story s2 e ch := rfl

/-- C10 (implicit): at the final `return` of the `try` block the local
`story` is non-empty for every non-empty scenario and every generation
result, so the `else create_simple_story(scenario)` arm of line 80 never
fires. -/
theorem c10_final_else_unreachable (sc full : String) (e : Bool) (ch : Fin 5)
    (hsc : sc ≠ "") :
    (generate_storyRun (some sc) (.ok full) e ch).finalElseTaken = false ∧
    ∃ st, (generate_storyRun (some sc) (.ok full) e ch).story = some st ∧ st ≠ "" := by
  obtain ⟨st, hrec, h1, -, -, -⟩ := genRun_ok sc full e ch hsc
  rw [hrec]
  exact ⟨rfl, st, rfl, h1⟩

theorem c10_witness :
    (generate_storyRun (some "a cat")
      (.ok "a cat. The story begins: hello world again ok") false 0).finalElseTaken = false :=
  (c10_final_else_unreachable "a cat" "a cat. The story begins: hello world again ok"
    false 0 (by decide)).1

end App
